import Mathlib

/-!
Verification development for the randomized media-delivery engine of
`src/worker.js` (Telegram bot worker, V5.9 generation).

The JavaScript worker keeps its state in a D1 (SQLite) database.  We embed
the tables touched by the delivery engine as Lean lists and each relevant
handler as a pure state transformer, translated statement-by-statement from
the source:

* `media_library`    ↦ `List MediaRecord`
* `served_history`   ↦ `List Nat` (media ids, the anti-repeat marker set)
* `config_topics`    ↦ `List Topic`
* `last_served`      ↦ `List LastServed`
* `user_favorites`   ↦ `List (Int × Nat)`
* `user_history` / `group_history` ↦ `List HistEntry` (the AFTER INSERT
  trigger that trims to 50 rows is embedded in `historyInsertTrim`)
* `batch_sessions`   ↦ `Option BatchSession` (per (chat,user) row; the
  schema has a unique index on that pair)

Timestamps (`Date.now()`, `served_at`, `created_at`) are milliseconds as
`Int`.  `added_at` is kept as the canonical SQLite text timestamp
(`YYYY-MM-DD HH:MM:SS`), on which the date functions used by the filter
clauses (`date`, `strftime` year, lexicographic comparison of ISO strings)
act by prefix-taking and string comparison; the values SQLite derives from
`now` are supplied as an explicit `TimeCtx`.  The Telegram API
(`forwardMessage` / `copyMessage`) is an oracle `Nat → MediaRecord →
DeliveryResult`; `Math.random()` is an oracle `Nat → Nat` supplying the
index draw of each selection.
-/

/-- One row of `media_library`.  Presentation-only columns (`caption`,
`file_id`, `file_unique_id`, `topic_id`) are omitted; no embedded operation
reads them. -/
structure MediaRecord where
  id : Nat
  message_id : Nat
  chat_id : Int
  category_name : String
  media_type : String
  duration : Option Int
  added_at : String
  view_count : Int
deriving Repr, DecidableEq

/-- One row of `config_topics` (a category binding of a chat/scope). -/
structure Topic where
  chat_id : Int
  topic_id : Int
  category_name : String
deriving Repr, DecidableEq

/-- One row of `last_served` (per-user quick-advance marker). -/
structure LastServed where
  user_id : Int
  last_media_id : Nat
  served_at : Int
deriving Repr, DecidableEq

/-- One row of `user_history` or `group_history`.  `owner` is the column
the 50-row trigger is keyed on (`user_id` for `user_history`, `chat_id`
for `group_history`). -/
structure HistEntry where
  id : Nat
  owner : Int
  media_id : Nat
  viewed_at : Int
deriving Repr, DecidableEq

/-- The per-(user,chat) filter record, `FILTER_DEFAULTS` shape: all six
values are stored as TEXT in `user_filters`. -/
structure Filters where
  media_type : String
  date_mode : String
  date_from : String
  date_to : String
  duration_mode : String
  duration_max : String
deriving Repr, DecidableEq

/-- `FILTER_DEFAULTS` from the top of the worker. -/
def FILTER_DEFAULTS : Filters :=
  { media_type := "all", date_mode := "all", date_from := "", date_to := ""
  , duration_mode := "all", duration_max := "" }

def FILTER_MEDIA_TYPES : List String := ["all", "photo", "video", "animation"]

def FILTER_DATE_MODES : List String := ["all", "today", "d7", "d30", "year", "custom"]

def FILTER_DURATION_MODES : List String := ["all", "s30", "s60", "s120", "s300", "custom"]

/-- `FILTER_DATE_RE`: `^\d{4}-(0[1-9]|1[0-2])-(0[1-9]|[12]\d|3[01])$`. -/
def filterDateRE (s : String) : Bool :=
  match s.data with
  | [y1, y2, y3, y4, h1, m1, m2, h2, d1, d2] =>
    y1.isDigit && y2.isDigit && y3.isDigit && y4.isDigit && h1 == '-' && h2 == '-' &&
    ((m1 == '0' && '1' ≤ m2 && m2 ≤ '9') || (m1 == '1' && '0' ≤ m2 && m2 ≤ '2')) &&
    ((d1 == '0' && '1' ≤ d2 && d2 ≤ '9') || ((d1 == '1' || d1 == '2') && d2.isDigit) ||
      (d1 == '3' && (d2 == '0' || d2 == '1')))
  | _ => false

/-- The duration validator `^(0|[1-9]\d*)$` used by `normalizeFilters`. -/
def durationNumRE (s : String) : Bool :=
  match s.data with
  | [] => false
  | ['0'] => true
  | c :: cs => c != '0' && c.isDigit && cs.all (·.isDigit)

/-- JavaScript `String.prototype.trim`: strip whitespace from both ends. -/
def strTrim (s : String) : String :=
  ⟨(((s.data.dropWhile Char.isWhitespace).reverse.dropWhile Char.isWhitespace).reverse)⟩

/-- Lexicographic strict comparison of strings by character code, the
order JavaScript `<`/`>` and SQLite text comparison use on ASCII. -/
def strLtChars : List Char → List Char → Bool
  | [], [] => false
  | [], _ :: _ => true
  | _ :: _, [] => false
  | a :: as, b :: bs => if a < b then true else if b < a then false else strLtChars as bs

def strLtB (a b : String) : Bool := strLtChars a.data b.data

/-- `normalizeFilters(raw)`: whitelist each enum, validate the companion
values, and fall custom modes back to `all` when their companions are
missing or unordered (`date_from > date_to`). -/
def normalizeFilters (raw : Filters) : Filters :=
  let mt := if FILTER_MEDIA_TYPES.contains raw.media_type then raw.media_type else FILTER_DEFAULTS.media_type
  let dm := if FILTER_DATE_MODES.contains raw.date_mode then raw.date_mode else FILTER_DEFAULTS.date_mode
  let um := if FILTER_DURATION_MODES.contains raw.duration_mode then raw.duration_mode else FILTER_DEFAULTS.duration_mode
  let df := if filterDateRE raw.date_from then raw.date_from else ""
  let dt := if filterDateRE raw.date_to then raw.date_to else ""
  let maxVal := strTrim raw.duration_max
  let dmax := if durationNumRE maxVal then maxVal else ""
  let dateInvalid := dm == "custom" && (df == "" || dt == "" || strLtB dt df)
  let dm' := if dateInvalid then "all" else dm
  let df' := if dateInvalid then "" else df
  let dt' := if dateInvalid then "" else dt
  let um' := if um == "custom" && dmax == "" then "all" else um
  { media_type := mt, date_mode := dm', date_from := df', date_to := dt'
  , duration_mode := um', duration_max := dmax }

/-- `isFilterActive(filters)`: active iff any of the three mode dimensions
is non-default after normalization. -/
def isFilterActive (filters : Filters) : Bool :=
  let f := normalizeFilters filters
  f.media_type != "all" || f.date_mode != "all" || f.duration_mode != "all"

/-- The values SQLite computes from `'now'` inside
`buildFilterWhereClause`: the current date, the `-7 days` and `-30 days`
cutoffs (canonical datetime text), and the current year. -/
structure TimeCtx where
  today : String
  d7cut : String
  d30cut : String
  yearNow : String
deriving Repr, DecidableEq

/-- SQLite `date(added_at)` on a canonical `YYYY-MM-DD HH:MM:SS` (or
`YYYY-MM-DD`) value: the date prefix. -/
def dateOnly (s : String) : String := s.take 10

/-- SQLite `strftime('%Y', added_at)`: the year prefix. -/
def yearOf (s : String) : String := s.take 4

/-- `FILTER_DURATION_PRESET_MAP` plus the `parseInt` of a custom
`duration_max`; `none` when no duration clause is emitted. -/
def durationCeiling (f : Filters) : Option Int :=
  if f.duration_mode == "custom" then (f.duration_max.toNat?).map Int.ofNat
  else if f.duration_mode == "s30" then some 30
  else if f.duration_mode == "s60" then some 60
  else if f.duration_mode == "s120" then some 120
  else if f.duration_mode == "s300" then some 300
  else none

/-- The record predicate of the WHERE fragment built by
`buildFilterWhereClause(filters, 'm')`; the function normalizes its input
before emitting clauses, exactly as the source does. -/
def buildFilterPred (filters : Filters) (ctx : TimeCtx) (m : MediaRecord) : Bool :=
  let f := normalizeFilters filters
  (f.media_type == "all" || m.media_type == f.media_type) &&
  (if f.date_mode == "today" then dateOnly m.added_at == ctx.today
   else if f.date_mode == "d7" then !strLtB m.added_at ctx.d7cut
   else if f.date_mode == "d30" then !strLtB m.added_at ctx.d30cut
   else if f.date_mode == "year" then yearOf m.added_at == ctx.yearNow
   else if f.date_mode == "custom" then
     !strLtB (dateOnly m.added_at) f.date_from && !strLtB f.date_to (dateOnly m.added_at)
   else true) &&
  (match durationCeiling f with
   | none => true
   | some ceil => match m.duration with
     | none => false
     | some d => decide (d ≤ ceil))

/-- JavaScript truthiness of the `excludeId` argument
(`excludeId ? 'AND m.id != ?' : ''`): absent or `0` emits no clause. -/
def idTruthy : Option Nat → Bool
  | none => false
  | some e => e != 0

/-- The full WHERE predicate of the candidate query inside
`selectRandomMedia`: category, scope, anti-repeat `NOT EXISTS`, exclusion,
and the filter fragment. -/
def selPred (category : String) (sourceChatId : Int) (useAntiRepeat : Bool)
    (excludeId : Option Nat) (f : Filters) (ctx : TimeCtx) (served : List Nat)
    (m : MediaRecord) : Bool :=
  m.category_name == category && m.chat_id == sourceChatId &&
  (!useAntiRepeat || !(served.contains m.id)) &&
  (!(idTruthy excludeId) || m.id != excludeId.getD 0) &&
  buildFilterPred f ctx m

/-- The candidate rows fetched by the first query of `selectRandomMedia`. -/
def selCandidates (store : List MediaRecord) (served : List Nat) (category : String)
    (sourceChatId : Int) (useAntiRepeat : Bool) (excludeId : Option Nat)
    (f : Filters) (ctx : TimeCtx) : List MediaRecord :=
  store.filter (selPred category sourceChatId useAntiRepeat excludeId f ctx served)

/-- `selectRandomMedia`: fetch all candidate ids, pick the
`Math.floor(Math.random() * length)`-th (the draw is the oracle value `k`,
reduced mod the candidate count), and re-fetch that row by id. -/
def selectRandomMedia (store : List MediaRecord) (served : List Nat) (category : String)
    (sourceChatId : Int) (useAntiRepeat : Bool) (excludeId : Option Nat)
    (f : Filters) (ctx : TimeCtx) (k : Nat) : Option MediaRecord :=
  let results := (selCandidates store served category sourceChatId useAntiRepeat excludeId f ctx).map (·.id)
  if results.isEmpty then none
  else
    let targetId := results.getD (k % results.length) 0
    store.find? (fun r => r.id == targetId)

/-- The database state touched by the delivery engine. -/
structure Db where
  media : List MediaRecord
  servedHistory : List Nat
  configTopics : List Topic
  lastServed : List LastServed
  userFavorites : List (Int × Nat)
  userHistory : List HistEntry
  groupHistory : List HistEntry
deriving Repr, DecidableEq

/-- Result of one Telegram delivery call (`forwardMessage` in display mode
A, `copyMessage` otherwise); a non-`ok` response carries the free-text
`description`. -/
inductive DeliveryResult where
  | ok
  | fail (description : String)
deriving Repr, DecidableEq

/-- JavaScript `String.prototype.includes` / SQLite `INSTR(...) > 0`:
substring occurrence. -/
def strContains (s pat : String) : Bool := decide (pat.data <:+: s.data)

/-- The destination-gone classifier of the serve loop:
`errDesc.includes('chat not found') || errDesc.includes('bot was kicked')
|| errDesc.includes('channel not found')`. -/
def scopeGoneDesc (desc : String) : Bool :=
  strContains desc "chat not found" || strContains desc "bot was kicked" ||
  strContains desc "channel not found"

/-- Scope-level purge: `DELETE FROM media_library WHERE chat_id = ?` and
`DELETE FROM config_topics WHERE chat_id = ?`. -/
def purgeScope (db : Db) (chatId : Int) : Db :=
  { db with media := db.media.filter (fun r => r.chat_id != chatId)
          , configTopics := db.configTopics.filter (fun t => t.chat_id != chatId) }

/-- Item-level purge: `DELETE FROM media_library WHERE id = ?`. -/
def purgeItem (db : Db) (mediaId : Nat) : Db :=
  { db with media := db.media.filter (fun r => r.id != mediaId) }

/-- The `else` branch of a failed delivery inside `sendRandomMedia`:
classify the error description and purge. -/
def handleDeliveryFailure (db : Db) (m : MediaRecord) (desc : String) : Db :=
  if scopeGoneDesc desc then purgeScope db m.chat_id else purgeItem db m.id

/-- The predicate of the exhaustion `totalCheck` query and of the marker
reset subquery: `m.category_name = ? AND m.chat_id = ?` plus the filter
fragment (no anti-repeat clause, no exclusion clause). -/
def matchesPool (category : String) (sourceChatId : Int) (f : Filters) (ctx : TimeCtx)
    (m : MediaRecord) : Bool :=
  m.category_name == category && m.chat_id == sourceChatId && buildFilterPred f ctx m

/-- `DELETE FROM served_history WHERE media_id IN (SELECT m.id FROM
media_library m WHERE m.category_name = ? AND m.chat_id = ? <filter>)`. -/
def exhaustionReset (category : String) (sourceChatId : Int) (f : Filters) (ctx : TimeCtx)
    (store : List MediaRecord) (served : List Nat) : List Nat :=
  served.filter (fun mid => !(store.any (fun m => matchesPool category sourceChatId f ctx m && m.id == mid)))

/-- One candidate-selection phase of a serve-loop iteration: select; if
empty under anti-repeat but the pool is nonempty ignoring it, clear the
markers of the pool and re-select with anti-repeat off. -/
def pickCandidate (category : String) (sourceChatId : Int) (useAntiRepeat : Bool)
    (excludeId : Option Nat) (f : Filters) (ctx : TimeCtx) (db : Db) (k1 k2 : Nat) :
    Option MediaRecord × Db :=
  match selectRandomMedia db.media db.servedHistory category sourceChatId useAntiRepeat excludeId f ctx k1 with
  | some m => (some m, db)
  | none =>
    if useAntiRepeat && 0 < (db.media.filter (matchesPool category sourceChatId f ctx)).length then
      let db' := { db with servedHistory := exhaustionReset category sourceChatId f ctx db.media db.servedHistory }
      (selectRandomMedia db'.media db'.servedHistory category sourceChatId false excludeId f ctx k2, db')
    else (none, db)

inductive ServeOutcome where
  | delivered (m : MediaRecord)
  | noContent
  | exhausted
deriving Repr, DecidableEq

/-- Result of a serve call: outcome, final database state, and the log of
external delivery attempts (`none` = success, `some desc` = failure). -/
structure ServeResult where
  outcome : ServeOutcome
  db : Db
  deliveries : List (MediaRecord × Option String)
deriving Repr, DecidableEq

/-- The settings and request parameters a serve call runs under. -/
structure ServeCfg where
  category : String
  sourceChatId : Int
  userId : Int
  useAntiRepeat : Bool
  strictSkip : Bool
  isNext : Bool
  filters : Filters
  ctx : TimeCtx
  now : Int
deriving Repr, DecidableEq

/-- The `while (attempts < 3 && !foundValid)` loop of `sendRandomMedia`:
pick a candidate (with exhaustion reset), attempt delivery, classify and
purge on failure, retry. -/
def serveLoop (cfg : ServeCfg) (excludeId : Option Nat) (rand : Nat → Nat)
    (deliver : Nat → MediaRecord → DeliveryResult) : Nat → Nat → Db → ServeResult
  | 0, _, db => ⟨.exhausted, db, []⟩
  | fuel + 1, attemptIdx, db =>
    let pick := pickCandidate cfg.category cfg.sourceChatId cfg.useAntiRepeat excludeId
      cfg.filters cfg.ctx db (rand (2 * attemptIdx)) (rand (2 * attemptIdx + 1))
    match pick.1 with
    | none => ⟨.noContent, pick.2, []⟩
    | some m =>
      match deliver attemptIdx m with
      | .ok => ⟨.delivered m, pick.2, [(m, none)]⟩
      | .fail desc =>
        let db2 := handleDeliveryFailure pick.2 m desc
        let rest := serveLoop cfg excludeId rand deliver fuel (attemptIdx + 1) db2
        ⟨rest.outcome, rest.db, (m, some desc) :: rest.deliveries⟩

/-- The quick-advance prologue of `sendRandomMedia` (`isNext` branch):
read `last_served`, take the exclusion id, and inside the 30-second
window decrement the prior view count (`MAX(0, view_count - 1)`) and —
unless strict skip — under anti-repeat also delete the prior marker. -/
def quickAdvance (cfg : ServeCfg) (db : Db) : Option Nat × Db :=
  if cfg.isNext then
    match db.lastServed.find? (fun l => l.user_id == cfg.userId) with
    | none => (none, db)
    | some last =>
      let ex := some last.last_media_id
      if cfg.now - last.served_at < 30000 then
        let media' := db.media.map (fun r =>
          if r.id == last.last_media_id then { r with view_count := max 0 (r.view_count - 1) } else r)
        if cfg.strictSkip then (ex, { db with media := media' })
        else
          let served' :=
            if cfg.useAntiRepeat then
              db.servedHistory.filter (fun mid => mid != last.last_media_id)
            else db.servedHistory
          (ex, { db with media := media', servedHistory := served' })
      else (ex, db)
  else (none, db)

/-- Recency order on history rows (`ORDER BY viewed_at DESC`). -/
def histGE (a b : HistEntry) : Prop := b.viewed_at ≤ a.viewed_at

instance : DecidableRel histGE := fun a b => inferInstanceAs (Decidable (b.viewed_at ≤ a.viewed_at))

instance : IsTotal HistEntry histGE := ⟨fun a b => le_total b.viewed_at a.viewed_at⟩

instance : IsTrans HistEntry histGE := ⟨fun _ _ _ h1 h2 => le_trans h2 h1⟩

/-- Insert plus the `limit_user_history` / `limit_group_history` trigger:
after the insert, delete every row of that owner whose id is not among
the 50 most recent (`ORDER BY viewed_at DESC LIMIT 50`). -/
def historyInsertTrim (log : List HistEntry) (e : HistEntry) : List HistEntry :=
  let log1 := log ++ [e]
  let ownRows := log1.filter (fun r => r.owner == e.owner)
  let keepIds := ((ownRows.insertionSort histGE).take 50).map (·.id)
  log1.filter (fun r => r.owner != e.owner || keepIds.contains r.id)

/-- The deferred success side effects of `sendRandomMedia`: marker
insert-or-ignore (when anti-repeat is on), `last_served` upsert,
view-count increment, and the two history inserts (each trimmed by its
trigger).  `hid1`, `hid2` are the autoincrement ids of the new history
rows. -/
def recordSuccess (cfg : ServeCfg) (db : Db) (m : MediaRecord) (hid1 hid2 : Nat) : Db :=
  { db with
    servedHistory :=
      if cfg.useAntiRepeat && !(db.servedHistory.contains m.id) then db.servedHistory ++ [m.id]
      else db.servedHistory
  , lastServed := (db.lastServed.filter (fun l => l.user_id != cfg.userId)) ++
      [{ user_id := cfg.userId, last_media_id := m.id, served_at := cfg.now }]
  , media := db.media.map (fun r => if r.id == m.id then { r with view_count := r.view_count + 1 } else r)
  , userHistory := historyInsertTrim db.userHistory
      { id := hid1, owner := cfg.userId, media_id := m.id, viewed_at := cfg.now }
  , groupHistory := historyInsertTrim db.groupHistory
      { id := hid2, owner := cfg.sourceChatId, media_id := m.id, viewed_at := cfg.now } }

/-- `sendRandomMedia`: quick-advance prologue, then the three-attempt
select/deliver/purge loop, then the success side effects. -/
def sendRandomMedia (cfg : ServeCfg) (db : Db) (rand : Nat → Nat)
    (deliver : Nat → MediaRecord → DeliveryResult) (hid1 hid2 : Nat) : ServeResult :=
  let start := quickAdvance cfg db
  let res := serveLoop cfg start.1 rand deliver 3 0 start.2
  match res.outcome with
  | .delivered m => { res with db := recordSuccess cfg res.db m hid1 hid2 }
  | _ => res

/-- One row of `batch_sessions` for the collection modes (`bd` / `bmv`);
`collected_ids` and `collected_msg_ids` are JSON integer arrays in the
schema, held here as the lists they encode.  `created_at` is the parsed
`new Date(created_at + 'Z').getTime()` value. -/
structure BatchSession where
  id : Nat
  chat_id : Int
  user_id : Int
  mode : String
  collected_ids : List Nat
  collected_msg_ids : List Nat
  created_at : Int
deriving Repr, DecidableEq

/-- The comma-separated body of the JSON array text SQLite stores for
`collected_ids` (built up by `json_insert(collected_ids, '$[#]', ?)`). -/
def jsonArrayBody : List Nat → List Char
  | [] => []
  | [x] => (toString x).data
  | x :: xs => (toString x).data ++ ',' :: jsonArrayBody xs

/-- The raw `collected_ids` column text, e.g. `[12,34]`. -/
def collectedText (ids : List Nat) : List Char := '[' :: (jsonArrayBody ids ++ [']'])

/-- The dedup probe `SELECT INSTR(collected_ids, ?) ... > 0`: substring
search for the decimal id inside the raw JSON text. -/
def instrFound (ids : List Nat) (mediaId : Nat) : Bool :=
  decide ((toString mediaId).data <:+: collectedText ids)

inductive CollectOutcome where
  | noSession
  | expiredFallThrough
  | notInDb
  | duplicateSilent
  | collected (cnt : Nat) (acknowledged : Bool)
deriving Repr, DecidableEq

/-- The batch-collection interceptor of `handleMessage` for an incoming
media message: no session falls through to normal intake; a session older
than 5 minutes is deleted and also falls through; otherwise the media id
is probed with INSTR (silent skip on a hit) and appended atomically
together with the message id, acknowledging every 1st and 5th item. -/
def batchCollect (session? : Option BatchSession) (now : Int) (dbMediaId : Option Nat)
    (msgId : Nat) : Option BatchSession × CollectOutcome :=
  match session? with
  | none => (none, .noSession)
  | some s =>
    if now - s.created_at > 300000 then (none, .expiredFallThrough)
    else
      match dbMediaId with
      | none => (some s, .notInDb)
      | some mid =>
        if instrFound s.collected_ids mid then (some s, .duplicateSilent)
        else
          let s' := { s with collected_ids := s.collected_ids ++ [mid]
                           , collected_msg_ids := s.collected_msg_ids ++ [msgId] }
          let cnt := s'.collected_ids.length
          (some s', .collected cnt (cnt == 1 || cnt % 5 == 0))

inductive EndOutcome where
  | noSession
  | expired
  | emptyAbort
  | confirmPrompt (n : Nat)
deriving Repr, DecidableEq

/-- The `/bd end` (and identically `/bmv end`) handler: missing session
rejects; a session older than 5 minutes is deleted and reported expired;
an empty collection aborts and deletes; otherwise prompt for
confirmation. -/
def bdEnd (session? : Option BatchSession) (now : Int) : Option BatchSession × EndOutcome :=
  match session? with
  | none => (none, .noSession)
  | some s =>
    if now - s.created_at > 300000 then (none, .expired)
    else if s.collected_ids.length == 0 then (none, .emptyAbort)
    else (some s, .confirmPrompt s.collected_ids.length)

/-- One round of `batchDeleteMediaByIds` for a single id: the five DELETE
statements over `media_library`, `served_history`, `user_favorites`,
`user_history`, `group_history`. -/
def deleteMediaEverywhere (db : Db) (mid : Nat) : Db :=
  { db with media := db.media.filter (fun r => r.id != mid)
          , servedHistory := db.servedHistory.filter (fun x => x != mid)
          , userFavorites := db.userFavorites.filter (fun p => p.2 != mid)
          , userHistory := db.userHistory.filter (fun h => h.media_id != mid)
          , groupHistory := db.groupHistory.filter (fun h => h.media_id != mid) }

/-- `batchDeleteMediaByIds(ids)`: the cascading delete over every
collected id (the 20-per-batch chunking only groups statements; the state
effect is the fold of the per-id deletes). -/
def batchDeleteMediaByIds (ids : List Nat) (db : Db) : Db :=
  ids.foldl deleteMediaEverywhere db

inductive ConfirmOutcome where
  | expiredMessage
  | executed (count : Nat)
deriving Repr, DecidableEq

/-- The `bs_cfm_d` callback (bulk-delete confirm): a missing session row
reports expiry; otherwise — with no check of `created_at` — the cascading
delete runs over the frozen collected set and the session moves to
`cleanup` mode. -/
def bsConfirmDelete (session? : Option BatchSession) (db : Db) :
    Db × Option BatchSession × ConfirmOutcome :=
  match session? with
  | none => (db, none, .expiredMessage)
  | some s =>
    (batchDeleteMediaByIds s.collected_ids db,
     some { s with mode := "cleanup" },
     .executed s.collected_ids.length)

example : normalizeFilters { FILTER_DEFAULTS with date_mode := "custom", date_from := "2024-05-02", date_to := "2024-05-01" } = FILTER_DEFAULTS := by decide

example : isFilterActive { FILTER_DEFAULTS with media_type := "video" } = true := by decide

example : instrFound [123] 12 = true := by decide

example : instrFound [124] 12 = true := by decide

example : instrFound [13, 24] 32 = false := by decide

example : scopeGoneDesc "Bad Request: chat not found" = true := by decide

example : scopeGoneDesc "Bad Request: message to copy not found" = false := by decide

/-! ## Shared concrete fixtures and helper lemmas -/

/-- A fixed `TimeCtx` used by the concrete scenarios. -/
def ctx0 : TimeCtx := ⟨"2025-01-10", "2025-01-03 00:00:00", "2024-12-11 00:00:00", "2025"⟩

/-- Lookup of a record view count by id (the projection of
`SELECT * FROM media_library WHERE id = ?`). -/
def viewCountOf (store : List MediaRecord) (mid : Nat) : Option Int :=
  (store.find? (fun r => r.id == mid)).map (·.view_count)

theorem find?_eq_of_nodup_ids (store : List MediaRecord) (r : MediaRecord)
    (hids : (store.map (·.id)).Nodup) (hr : r ∈ store) :
    store.find? (fun x => x.id == r.id) = some r := by
  rcases h : store.find? (fun x => x.id == r.id) with _ | r0
  · have := List.find?_eq_none.mp h r hr
    simp at this
  · have hm := List.mem_of_find?_eq_some h
    have hp : r0.id = r.id := by simpa using List.find?_some h
    rw [h]
    exact congrArg some (List.inj_on_of_nodup_map hids hm hr hp)

theorem suffix_jsonArrayBody : ∀ (ids : List Nat) (mid : Nat),
    (toString mid).data <:+ jsonArrayBody (ids ++ [mid])
  | [], mid => by simp [jsonArrayBody]
  | [a], mid => by
    refine ⟨(toString a).data ++ [','], ?_⟩
    simp [jsonArrayBody]
  | a :: b :: rest, mid => by
    obtain ⟨s, hs⟩ := suffix_jsonArrayBody (b :: rest) mid
    have key : jsonArrayBody ((a :: b :: rest) ++ [mid]) =
        (toString a).data ++ ',' :: (s ++ (toString mid).data) := by
      rw [hs]; rfl
    refine ⟨(toString a).data ++ ',' :: s, ?_⟩
    rw [key]
    simp [List.append_assoc]

theorem instrFound_append_self (ids : List Nat) (mid : Nat) :
    instrFound (ids ++ [mid]) mid = true := by
  obtain ⟨s, hs⟩ := suffix_jsonArrayBody ids mid
  have : (toString mid).data <:+: collectedText (ids ++ [mid]) := by
    refine ⟨'[' :: s, [']'], ?_⟩
    simp only [collectedText, ← hs]
    simp
  simpa [instrFound] using this

/-! ## C6: filter activity -/

/-- A stored filter that differs from the defaults only in `date_from`. -/
def c6dateFromOnly : Filters := { FILTER_DEFAULTS with date_from := "2024-01-01" }

/-- C6 counterexample: the claim says any field differing from its default
makes `isFilterActive` true, but a filter whose `date_from` alone is
non-default (a valid date, kept by normalization) is reported inactive:
the function only inspects the three mode fields. -/
theorem C6_counterexample :
    c6dateFromOnly.date_from ≠ FILTER_DEFAULTS.date_from ∧
    isFilterActive c6dateFromOnly = false := by decide

/-- C6 (amended): for a normalized (canonically stored) filter,
`isFilterActive` is true iff one of the three mode fields `media_type`,
`date_mode`, `duration_mode` differs from its default `all`; companion
fields alone (`date_from`, `date_to`, `duration_max`) never activate it.
For the all-default filter it is false. -/
theorem C6_isActive_iff_nondefault_mode (f : Filters) (hnorm : normalizeFilters f = f) :
    (isFilterActive f = true ↔
      (f.media_type ≠ "all" ∨ f.date_mode ≠ "all" ∨ f.duration_mode ≠ "all")) ∧
    isFilterActive FILTER_DEFAULTS = false := by
  constructor
  · simp only [isFilterActive, hnorm, Bool.or_eq_true, bne_iff_ne, or_assoc]
  · decide

/-- A filter restricted to photos, witnessing C6. -/
def c6photo : Filters := { FILTER_DEFAULTS with media_type := "photo" }

theorem C6_isActive_iff_nondefault_mode_witness : isFilterActive c6photo = true :=
  ((C6_isActive_iff_nondefault_mode c6photo (by decide)).1).mpr (Or.inl (by decide))

/-! ## C9 / C10: batch-session collection -/

/-- C9: collecting a media id not yet present appends the media id and the
originating message id together; collecting the same id a second time is a
silent no-op (same session row, no acknowledgment), leaving exactly one
stored entry for that id. -/
theorem C9_collect_idempotent (s : BatchSession) (now : Int) (mid msgId msgId2 : Nat)
    (hfresh : now - s.created_at ≤ 300000)
    (hnew : instrFound s.collected_ids mid = false)
    (hmem : mid ∉ s.collected_ids) :
    batchCollect (some s) now (some mid) msgId =
      (some { s with collected_ids := s.collected_ids ++ [mid]
                   , collected_msg_ids := s.collected_msg_ids ++ [msgId] },
       .collected (s.collected_ids.length + 1)
         ((s.collected_ids.length + 1 == 1) || ((s.collected_ids.length + 1) % 5 == 0))) ∧
    (s.collected_ids ++ [mid]).count mid = 1 ∧
    batchCollect (some { s with collected_ids := s.collected_ids ++ [mid]
                              , collected_msg_ids := s.collected_msg_ids ++ [msgId] })
        now (some mid) msgId2 =
      (some { s with collected_ids := s.collected_ids ++ [mid]
                   , collected_msg_ids := s.collected_msg_ids ++ [msgId] },
       .duplicateSilent) := by
  have hfresh' : ¬ (now - s.created_at > 300000) := by omega
  refine ⟨?_, ?_, ?_⟩
  · simp [batchCollect, hfresh', hnew]
  · simp [List.count_append, List.count_eq_zero.mpr hmem]
  · simp [batchCollect, hfresh', instrFound_append_self]

/-- Witness session for C9. -/
def c9empty : BatchSession := ⟨1, -100, 7, "bd", [], [], 0⟩

theorem C9_collect_idempotent_witness :
    batchCollect (some { c9empty with collected_ids := [7], collected_msg_ids := [11] })
        1000 (some 7) 12 =
      (some { c9empty with collected_ids := [7], collected_msg_ids := [11] },
       .duplicateSilent) := by
  have h := C9_collect_idempotent c9empty 1000 7 11 12 (by decide) (by decide) (by decide)
  exact h.2.2

/-- The session state after collecting media id 123 into a fresh session. -/
def c10s1 : BatchSession := ⟨1, -100, 7, "bd", [123], [11], 0⟩

/-- C10: membership is decided by INSTR substring search over the raw JSON
text, so after collecting id 123, the distinct, never-collected id 12 is
silently skipped (its digits occur inside "[123]") and is absent from the
final collected set. -/
theorem C10_instr_substring_skips_distinct_id :
    (123 : Nat) ≠ 12 ∧
    (batchCollect (some ⟨1, -100, 7, "bd", [], [], 0⟩) 1000 (some 123) 11).1 = some c10s1 ∧
    batchCollect (some c10s1) 2000 (some 12) 12 = (some c10s1, .duplicateSilent) ∧
    (12 : Nat) ∉ c10s1.collected_ids := by decide

/-! ## C5: batch-session expiry -/

/-- A `bd` session whose `created_at` lies more than 5 minutes before the
probe time 400000 ms, with one collected record. -/
def c5stale : BatchSession := ⟨1, -100, 7, "bd", [5], [44], 0⟩

def c5media : MediaRecord := ⟨5, 55, -100, "C", "photo", none, "2025-01-05 12:00:00", 0⟩

def c5db : Db := ⟨[c5media], [5], [], [], [], [], []⟩

/-- C5 counterexample: the bulk-delete confirm callback performs no expiry
check — on a session more than 5 minutes old it still executes the
cascading delete, which differs from its behavior when no session exists
(an expiry message and no mutation). -/
theorem C5_counterexample :
    ((400000 : Int) - c5stale.created_at > 300000) ∧
    bsConfirmDelete (some c5stale) c5db ≠ bsConfirmDelete none c5db := by decide

/-- C5 (amended): only the collect interceptor and the `end` command check
the 5-minute expiry; each deletes the stale row and performs no
collection/bulk action (collect falls through to normal intake).  The
confirm callback runs the bulk mutation on a session of any age; stale
rows are otherwise only removed by the asynchronous sweep at the start of
each update. -/
theorem C5_expiry_only_on_collect_and_end (s : BatchSession) (now : Int)
    (dbMediaId : Option Nat) (msgId : Nat) (db : Db)
    (hstale : now - s.created_at > 300000) :
    batchCollect (some s) now dbMediaId msgId = (none, .expiredFallThrough) ∧
    bdEnd (some s) now = (none, .expired) ∧
    (bsConfirmDelete (some s) db).1 = batchDeleteMediaByIds s.collected_ids db := by
  refine ⟨?_, ?_, rfl⟩
  · simp [batchCollect, hstale]
  · simp [bdEnd, hstale]

theorem C5_expiry_only_on_collect_and_end_witness :
    batchCollect (some c5stale) 400000 (some 5) 9 = (none, .expiredFallThrough) :=
  (C5_expiry_only_on_collect_and_end c5stale 400000 (some 5) 9 c5db (by decide)).1

/-! ## C7: quick-advance throttle -/

theorem viewCountOf_decrement (store : List MediaRecord) (mid : Nat) (r : MediaRecord)
    (hids : (store.map (·.id)).Nodup) (hr : r ∈ store) (hrid : r.id = mid) :
    viewCountOf (store.map (fun x =>
        if x.id == mid then { x with view_count := max 0 (x.view_count - 1) } else x)) mid
      = some (max 0 (r.view_count - 1)) := by
  unfold viewCountOf
  rw [List.find?_map]
  have hcomp : ((fun x : MediaRecord => x.id == mid) ∘ (fun x =>
      if x.id == mid then { x with view_count := max 0 (x.view_count - 1) } else x))
      = (fun x : MediaRecord => x.id == mid) := by
    funext x
    by_cases h : x.id = mid
    · simp [h]
    · simp [h]
  rw [hcomp, ← hrid, find?_eq_of_nodup_ids store r hids hr]
  simp [hrid]

/-- C7: on a quick-advance (`isNext`) serve with a `last_served` row less
than 30 seconds old, the prior record's view count becomes
`MAX(0, view_count - 1)` — a decrement by exactly one, floored at zero —
and with a row 30 seconds old or older it is unchanged. -/
theorem C7_quick_advance_throttle (cfg : ServeCfg) (db : Db) (last : LastServed)
    (r : MediaRecord)
    (hnext : cfg.isNext = true)
    (hlast : db.lastServed.find? (fun l => l.user_id == cfg.userId) = some last)
    (hids : (db.media.map (·.id)).Nodup)
    (hr : r ∈ db.media) (hrid : r.id = last.last_media_id) :
    (cfg.now - last.served_at < 30000 →
      viewCountOf (quickAdvance cfg db).2.media last.last_media_id =
        some (max 0 (r.view_count - 1))) ∧
    (30000 ≤ cfg.now - last.served_at →
      viewCountOf (quickAdvance cfg db).2.media last.last_media_id =
        some r.view_count) := by
  constructor
  · intro hw
    have hmedia : (quickAdvance cfg db).2.media = db.media.map (fun x =>
        if x.id == last.last_media_id then { x with view_count := max 0 (x.view_count - 1) } else x) := by
      cases hss : cfg.strictSkip <;> simp [quickAdvance, hnext, hlast, hw, hss]
    rw [hmedia]
    exact viewCountOf_decrement db.media last.last_media_id r hids hr hrid
  · intro hw
    have hw' : ¬ (cfg.now - last.served_at < 30000) := not_lt.mpr hw
    have hdb : (quickAdvance cfg db).2 = db := by
      simp [quickAdvance, hnext, hlast, hw']
    rw [hdb]
    unfold viewCountOf
    rw [← hrid, find?_eq_of_nodup_ids db.media r hids hr]
    rfl

def c7r : MediaRecord := ⟨1, 11, -100, "C", "photo", none, "2025-01-05 12:00:00", 5⟩

def c7db : Db := ⟨[c7r], [], [], [⟨7, 1, 0⟩], [], [], []⟩

def c7cfg : ServeCfg := ⟨"C", -100, 7, true, false, true, FILTER_DEFAULTS, ctx0, 10000⟩

theorem C7_quick_advance_throttle_witness :
    viewCountOf (quickAdvance c7cfg c7db).2.media 1 = some (max 0 ((5 : Int) - 1)) :=
  (C7_quick_advance_throttle c7cfg c7db ⟨7, 1, 0⟩ c7r (by decide) (by decide) (by decide)
    (by decide) (by decide)).1 (by decide)

/-! ## C2: selection respects category, scope, exclusion, anti-repeat -/

/-- C2: whenever `selectRandomMedia` returns a record, it is of the
requested category and scope, differs from a supplied (truthy) exclusion
id, and — under anti-repeat — is not in the served-marker set.  (An
`excludeId` of `0` is JavaScript-falsy and emits no clause; record ids are
AUTOINCREMENT values ≥ 1, so the `e ≠ 0` hypothesis is vacuous in the
worker.) -/
theorem C2_selection_respects_predicate (store : List MediaRecord) (served : List Nat)
    (category : String) (sourceChatId : Int) (useAntiRepeat : Bool) (excludeId : Option Nat)
    (f : Filters) (ctx : TimeCtx) (k : Nat) (m : MediaRecord)
    (hids : (store.map (·.id)).Nodup)
    (hsel : selectRandomMedia store served category sourceChatId useAntiRepeat excludeId f ctx k = some m) :
    m.category_name = category ∧ m.chat_id = sourceChatId ∧
    (∀ e, excludeId = some e → e ≠ 0 → m.id ≠ e) ∧
    (useAntiRepeat = true → m.id ∉ served) := by
  unfold selectRandomMedia at hsel
  set cands := selCandidates store served category sourceChatId useAntiRepeat excludeId f ctx with hcands
  set results := cands.map (·.id) with hres
  by_cases he : results.isEmpty
  · rw [if_pos he] at hsel
    exact absurd hsel (by simp)
  · rw [if_neg he] at hsel
    have hlen : 0 < results.length := by
      rcases results with _ | ⟨a, as⟩
      · simp at he
      · simp
    have hm : m ∈ store := List.mem_of_find?_eq_some hsel
    have hmid : m.id = results.getD (k % results.length) 0 := by
      simpa using List.find?_some hsel
    have htmem : results.getD (k % results.length) 0 ∈ results := by
      rw [List.getD_eq_getElem results 0 (Nat.mod_lt k hlen)]
      exact List.getElem_mem _
    obtain ⟨c, hc, hcid⟩ := List.mem_map.mp htmem
    rw [hcands] at hc
    unfold selCandidates at hc
    have hcstore : c ∈ store := (List.mem_filter.mp hc).1
    have hcpred := (List.mem_filter.mp hc).2
    have hmc : m = c := List.inj_on_of_nodup_map hids hm hcstore (by rw [hmid, ← hcid])
    rw [hmc]
    simp only [selPred, Bool.and_eq_true] at hcpred
    obtain ⟨⟨⟨⟨hcat, hchat⟩, hanti⟩, hexcl⟩, _⟩ := hcpred
    refine ⟨by simpa using hcat, by simpa using hchat, ?_, ?_⟩
    · intro e he0 hne
      subst he0
      have htr : idTruthy (some e) = true := by simp [idTruthy, hne]
      rw [htr] at hexcl
      simpa using hexcl
    · intro hon
      rw [hon] at hanti
      simpa using hanti

def c2r1 : MediaRecord := ⟨1, 11, -100, "C", "photo", none, "2025-01-05 12:00:00", 0⟩

def c2r2 : MediaRecord := ⟨2, 12, -100, "C", "photo", none, "2025-01-06 12:00:00", 0⟩

def c2r3 : MediaRecord := ⟨3, 13, -100, "C", "photo", none, "2025-01-07 12:00:00", 0⟩

theorem C2_selection_respects_predicate_witness :
    c2r3.category_name = "C" ∧ c2r3.chat_id = -100 ∧
    (∀ e, (some 2 : Option Nat) = some e → e ≠ 0 → c2r3.id ≠ e) ∧
    (true = true → c2r3.id ∉ [1]) :=
  C2_selection_respects_predicate [c2r1, c2r2, c2r3] [1] "C" (-100) true (some 2)
    FILTER_DEFAULTS ctx0 0 c2r3 (by decide) (by decide)

/-! ## C3: exhaustion reset -/

def c3photo : MediaRecord := ⟨1, 11, -100, "C", "photo", none, "2025-01-05 12:00:00", 0⟩

def c3video : MediaRecord := ⟨2, 12, -100, "C", "video", some 45, "2025-01-06 12:00:00", 0⟩

def c3photoF : Filters := { FILTER_DEFAULTS with media_type := "photo" }

/-- C3 counterexample: with an active photo filter, both records of
(scope -100, category "C") served, selection under anti-repeat returns
none while one record still matches the predicate ignoring anti-repeat,
so the serve loop resets — but the reset only deletes markers of
filter-matching records: the marker of the video record of the same
(scope,category) pair survives. -/
theorem C3_counterexample :
    selectRandomMedia [c3photo, c3video] [1, 2] "C" (-100) true none c3photoF ctx0 0 = none ∧
    0 < (([c3photo, c3video].filter (matchesPool "C" (-100) c3photoF ctx0)).length) ∧
    exhaustionReset "C" (-100) c3photoF ctx0 [c3photo, c3video] [1, 2] = [2] ∧
    c3video.category_name = "C" ∧ c3video.chat_id = -100 := by decide

/-- C3 (amended): immediately after an exhaustion reset the anti-repeat
set contains no marker for any record of the (scope,category) pair that
matches the current filter predicate, and any such previously-served
record (not barred by the exclusion id) is again in the candidate set of
the re-selection the loop performs (anti-repeat off).  Markers of pair
records not matching the filter are retained. -/
theorem C3_reset_clears_filtered_pool (category : String) (sourceChatId : Int)
    (f : Filters) (ctx : TimeCtx) (store : List MediaRecord) (served : List Nat)
    (excludeId : Option Nat) (r : MediaRecord)
    (hr : r ∈ store) (_hserved : r.id ∈ served)
    (hpool : matchesPool category sourceChatId f ctx r = true)
    (hexcl : idTruthy excludeId = true → r.id ≠ excludeId.getD 0) :
    r.id ∉ exhaustionReset category sourceChatId f ctx store served ∧
    r ∈ selCandidates store (exhaustionReset category sourceChatId f ctx store served)
        category sourceChatId false excludeId f ctx := by
  simp only [matchesPool, Bool.and_eq_true, beq_iff_eq] at hpool
  obtain ⟨⟨hcat, hchat⟩, hfilt⟩ := hpool
  constructor
  · intro hmem
    rw [exhaustionReset] at hmem
    have h2 := (List.mem_filter.mp hmem).2
    simp only [Bool.not_eq_true', List.any_eq_false] at h2
    have := h2 r hr
    simp [matchesPool, hcat, hchat, hfilt] at this
  · unfold selCandidates
    refine List.mem_filter.mpr ⟨hr, ?_⟩
    simp only [selPred, Bool.and_eq_true, Bool.or_eq_true]
    refine ⟨⟨⟨⟨by simp [hcat], by simp [hchat]⟩, by simp⟩, ?_⟩, hfilt⟩
    by_cases ht : idTruthy excludeId = true
    · exact Or.inr (by simpa using hexcl ht)
    · exact Or.inl (by simp [Bool.not_eq_true] at ht ⊢; exact ht)

theorem C3_reset_clears_filtered_pool_witness :
    (1 : Nat) ∉ exhaustionReset "C" (-100) c3photoF ctx0 [c3photo, c3video] [1, 2] ∧
    c3photo ∈ selCandidates [c3photo, c3video]
      (exhaustionReset "C" (-100) c3photoF ctx0 [c3photo, c3video] [1, 2])
      "C" (-100) false none c3photoF ctx0 :=
  C3_reset_clears_filtered_pool "C" (-100) c3photoF ctx0 [c3photo, c3video] [1, 2]
    none c3photo (by decide) (by decide) (by decide) (by decide)

/-! ## C1: retry bound and purge classification -/

theorem serveLoop_deliveries_length_le (cfg : ServeCfg) (excludeId : Option Nat)
    (rand : Nat → Nat) (deliver : Nat → MediaRecord → DeliveryResult) :
    ∀ (fuel attemptIdx : Nat) (db : Db),
      (serveLoop cfg excludeId rand deliver fuel attemptIdx db).deliveries.length ≤ fuel := by
  intro fuel
  induction fuel with
  | zero => intro i db; simp [serveLoop]
  | succ n ih =>
    intro i db
    simp only [serveLoop]
    split
    · simp
    · split
      · simp
      · simpa using Nat.succ_le_succ (ih (i + 1) _)

/-- C1: a serve call performs at most 3 external delivery attempts, and
each failed attempt purges by error classification: a destination-gone
description removes exactly the records of the selected record's source
scope together with that scope's category bindings, any other description
removes exactly the selected record (by id) and nothing else. -/
theorem C1_retry_bound_and_purge_classification :
    (∀ (cfg : ServeCfg) (db : Db) (rand : Nat → Nat)
        (deliver : Nat → MediaRecord → DeliveryResult) (hid1 hid2 : Nat),
      (sendRandomMedia cfg db rand deliver hid1 hid2).deliveries.length ≤ 3) ∧
    (∀ (db : Db) (m : MediaRecord) (desc : String),
      (handleDeliveryFailure db m desc).media.Sublist db.media ∧
      (scopeGoneDesc desc = true →
        (∀ r ∈ db.media, (r ∈ (handleDeliveryFailure db m desc).media ↔ r.chat_id ≠ m.chat_id)) ∧
        (∀ t ∈ db.configTopics,
          (t ∈ (handleDeliveryFailure db m desc).configTopics ↔ t.chat_id ≠ m.chat_id))) ∧
      (scopeGoneDesc desc = false →
        (∀ r ∈ db.media, (r ∈ (handleDeliveryFailure db m desc).media ↔ r.id ≠ m.id)) ∧
        (handleDeliveryFailure db m desc).configTopics = db.configTopics)) := by
  constructor
  · intro cfg db rand deliver hid1 hid2
    unfold sendRandomMedia
    have h := serveLoop_deliveries_length_le cfg (quickAdvance cfg db).1 rand deliver 3 0
      (quickAdvance cfg db).2
    dsimp only
    split <;> simpa using h
  · intro db m desc
    refine ⟨?_, ?_, ?_⟩
    · unfold handleDeliveryFailure purgeScope purgeItem
      split <;> exact List.filter_sublist _
    · intro hgone
      unfold handleDeliveryFailure
      rw [if_pos hgone]
      constructor
      · intro r hr
        simp [purgeScope, List.mem_filter, hr]
      · intro t ht
        simp [purgeScope, List.mem_filter, ht]
    · intro hitem
      unfold handleDeliveryFailure
      rw [if_neg (by simp [hitem])]
      constructor
      · intro r hr
        simp [purgeItem, List.mem_filter, hr]
      · rfl

def c1media : MediaRecord := ⟨2, 12, -100, "C", "video", some 45, "2025-01-06 12:00:00", 3⟩

def c1other : MediaRecord := ⟨9, 19, -200, "D", "photo", none, "2025-01-06 12:00:00", 0⟩

def c1db : Db := ⟨[c1media, c1other], [], [⟨-100, 5, "C"⟩], [], [], [], []⟩

def c1cfg : ServeCfg := ⟨"C", -100, 7, false, false, false, FILTER_DEFAULTS, ctx0, 1000⟩

theorem C1_retry_bound_and_purge_classification_witness :
    (sendRandomMedia c1cfg c1db (fun _ => 0)
        (fun _ _ => .fail "Bad Request: chat not found") 0 0).deliveries.length ≤ 3 ∧
    (c1other ∈ (handleDeliveryFailure c1db c1media "Bad Request: chat not found").media ↔
      c1other.chat_id ≠ c1media.chat_id) ∧
    (c1other ∈ (handleDeliveryFailure c1db c1media "Request timed out").media ↔
      c1other.id ≠ c1media.id) :=
  ⟨C1_retry_bound_and_purge_classification.1 c1cfg c1db (fun _ => 0)
      (fun _ _ => .fail "Bad Request: chat not found") 0 0,
   ((C1_retry_bound_and_purge_classification.2 c1db c1media "Bad Request: chat not found").2.1
      (by decide)).1 c1other (by decide),
   ((C1_retry_bound_and_purge_classification.2 c1db c1media "Request timed out").2.2
      (by decide)).1 c1other (by decide)⟩

/-! ## C4: the serve-loop purges orphan the served marker -/

def c4ra : MediaRecord := ⟨1, 11, -100, "C", "photo", none, "2025-01-05 12:00:00", 0⟩

def c4rb : MediaRecord := ⟨2, 12, -100, "C", "video", some 45, "2025-01-06 12:00:00", 3⟩

/-- Scope-gone run: record 1 already carries a marker; delivery of record
2 fails with a destination-gone description. -/
def c4dbScope : Db := ⟨[c4ra, c4rb], [1], [⟨-100, 5, "C"⟩], [], [], [], []⟩

def c4cfgScope : ServeCfg := ⟨"C", -100, 7, true, false, false, FILTER_DEFAULTS, ctx0, 1000⟩

/-- Item-level run: the single record 1 carries a marker (anti-repeat is
currently off); its delivery fails with an item-level description. -/
def c4dbItem : Db := ⟨[c4ra], [1], [], [], [], [], []⟩

def c4cfgItem : ServeCfg := ⟨"C", -100, 7, false, false, false, FILTER_DEFAULTS, ctx0, 1000⟩

/-- C4 is violated by the code: both failure purges of the serve loop
delete only `media_library` (and, for scope failures, `config_topics`)
rows and never the `served_history` marker.  In both runs below the final
state holds the marker `1` while no record with id 1 — indeed no record
at all — remains, breaking the subset invariant. -/
theorem C4_purge_leaves_orphan_marker :
    ((sendRandomMedia c4cfgScope c4dbScope (fun _ => 0)
        (fun _ _ => .fail "Forbidden: bot was kicked from the supergroup chat") 0 0).db.media = [] ∧
     1 ∈ (sendRandomMedia c4cfgScope c4dbScope (fun _ => 0)
        (fun _ _ => .fail "Forbidden: bot was kicked from the supergroup chat") 0 0).db.servedHistory) ∧
    ((sendRandomMedia c4cfgItem c4dbItem (fun _ => 0)
        (fun _ _ => .fail "Bad Request: message to copy not found") 0 0).db.media = [] ∧
     1 ∈ (sendRandomMedia c4cfgItem c4dbItem (fun _ => 0)
        (fun _ _ => .fail "Bad Request: message to copy not found") 0 0).db.servedHistory) := by
  decide

/-! ## C8: history logs capped at 50 rows, oldest evicted -/

/-- C8: after an insert (with a fresh autoincrement id), the owner's log
holds at most 50 rows; and when the owner already had exactly 50 rows with
pairwise-distinct timestamps, all older than the new row, the trigger
evicts exactly the oldest existing row: the new row is present and an old
row survives iff it is not the oldest. -/
theorem C8_history_cap_and_eviction (log : List HistEntry) (e : HistEntry)
    (hids : ((log ++ [e]).map (·.id)).Nodup) :
    (((historyInsertTrim log e).filter (fun r => r.owner == e.owner)).length ≤ 50) ∧
    ((log.filter (fun r => r.owner == e.owner)).length = 50 →
     (∀ x ∈ log.filter (fun r => r.owner == e.owner), x.viewed_at < e.viewed_at) →
     (log.filter (fun r => r.owner == e.owner)).Pairwise (fun a b => a.viewed_at ≠ b.viewed_at) →
     ∀ oldest ∈ log.filter (fun r => r.owner == e.owner),
       (∀ x ∈ log.filter (fun r => r.owner == e.owner), oldest.viewed_at ≤ x.viewed_at) →
       (e ∈ historyInsertTrim log e ∧
        ∀ x ∈ log.filter (fun r => r.owner == e.owner),
          (x ∈ historyInsertTrim log e ↔ x ≠ oldest))) := by
  set p : HistEntry → Bool := fun r => r.owner == e.owner with hp
  set log1 := log ++ [e] with hlog1
  set rows := log.filter p with hrows
  set own := log1.filter p with hown
  set S := own.insertionSort histGE with hS
  set keep := S.take 50 with hkeep
  set keepIds := keep.map (·.id) with hkeepIds
  have hres : historyInsertTrim log e =
      log1.filter (fun r => r.owner != e.owner || keepIds.contains r.id) := rfl
  have hnodup_log1 : log1.Nodup := List.Nodup.of_map _ hids
  have hnodup_own : own.Nodup := List.Nodup.sublist (List.filter_sublist _) hnodup_log1
  have injId : ∀ x ∈ log1, ∀ y ∈ log1, x.id = y.id → x = y := by
    intro x hx y hy hxy
    exact List.inj_on_of_nodup_map hids hx hy hxy
  have hperm : S.Perm own := List.perm_insertionSort histGE own
  have hkeep_own : ∀ y ∈ keep, y ∈ own := by
    intro y hy
    exact hperm.mem_iff.mp ((List.take_sublist 50 S).subset hy)
  constructor
  · -- at most 50 rows for the owner
    have hsub2 : ((historyInsertTrim log e).filter p).Sublist log1 := by
      rw [hres]
      exact (List.filter_sublist _).trans (List.filter_sublist _)
    have hresnodup : (((historyInsertTrim log e).filter p).map (·.id)).Nodup :=
      List.Nodup.sublist (List.Sublist.map _ hsub2) hids
    have hsubset : (((historyInsertTrim log e).filter p).map (·.id)) ⊆ keepIds := by
      intro x hx
      obtain ⟨r, hrmem, hrid⟩ := List.mem_map.mp hx
      have h2 := List.mem_filter.mp hrmem
      have hpr : (r.owner == e.owner) = true := h2.2
      have h3 := List.mem_filter.mp (by rw [hres] at h2; exact h2.1)
      have h4 := h3.2
      simp only [Bool.or_eq_true, bne_iff_ne, ne_eq] at h4
      rcases h4 with h4 | h4
      · exact absurd (by simpa using hpr) h4
      · rw [← hrid]
        simpa using h4
    calc ((historyInsertTrim log e).filter p).length
        = (((historyInsertTrim log e).filter p).map (·.id)).length := (List.length_map _ _).symm
      _ ≤ keepIds.length := (List.subperm_of_subset hresnodup hsubset).length_le
      _ = keep.length := List.length_map _ _
      _ ≤ 50 := List.length_take_le _ _
  · intro hlen50 hmax hdist oldest holdmem holdmin
    have hpe : p e = true := by simp [hp]
    have hown_eq : own = rows ++ [e] := by
      rw [hown, hlog1, hrows, List.filter_append]
      simp [hpe]
    have hrows_log : ∀ x ∈ rows, x ∈ log := fun x hx => (List.filter_sublist log).subset hx
    have henotinlog : e ∉ log := by
      intro hmem
      have hin : e.id ∈ log.map (·.id) := List.mem_map_of_mem _ hmem
      have hids' := hids
      rw [List.map_append] at hids'
      exact (List.nodup_append.mp hids').2.2 hin (by simp)
    have hownlen : own.length = 51 := by
      rw [hown_eq, List.length_append, hlen50]
      simp
    have hsort : List.Pairwise histGE S := List.sorted_insertionSort histGE own
    have hSlen : S.length = 51 := by rw [hperm.length_eq, hownlen]
    have hSnodup : S.Nodup := hperm.nodup_iff.mpr hnodup_own
    obtain ⟨d, hd⟩ : ∃ d, S.drop 50 = [d] :=
      List.length_eq_one.mp (by rw [List.length_drop, hSlen])
    have hSdecomp : S = keep ++ [d] := by
      have h0 := List.take_append_drop 50 S
      rw [hd] at h0
      exact h0.symm
    have hkeep_ge_d : ∀ x ∈ keep, d.viewed_at ≤ x.viewed_at := by
      have hs2 := hsort
      rw [hSdecomp] at hs2
      intro x hx
      exact (List.pairwise_append.mp hs2).2.2 x hx d (by simp)
    have hd_own : d ∈ own := hperm.mem_iff.mp (by rw [hSdecomp]; simp)
    have holdstrict : ∀ x ∈ own, x ≠ oldest → oldest.viewed_at < x.viewed_at := by
      intro x hx hne
      rw [hown_eq] at hx
      rcases List.mem_append.mp hx with hxr | hxe
      · have hle := holdmin x hxr
        have hdiff : x.viewed_at ≠ oldest.viewed_at :=
          List.Pairwise.forall (fun _ _ hab => hab.symm) hdist hxr holdmem hne
        omega
      · have hxe' : x = e := by simpa using hxe
        rw [hxe']
        exact hmax oldest holdmem
    have hdold : d = oldest := by
      by_contra hne
      have hold_S : oldest ∈ S := hperm.mem_iff.mpr (by rw [hown_eq]; exact List.mem_append.mpr (Or.inl holdmem))
      rw [hSdecomp] at hold_S
      rcases List.mem_append.mp hold_S with hk | h1
      · have h1 := hkeep_ge_d oldest hk
        have h2 := holdstrict d hd_own hne
        omega
      · have h2 : oldest = d := by simpa using h1
        exact hne h2.symm
    have he_own : e ∈ own := by rw [hown_eq]; simp
    have he_ne_d : e ≠ d := by
      intro h
      rw [hdold] at h
      exact henotinlog (h ▸ hrows_log oldest holdmem)
    have he_keep : e ∈ keep := by
      have hm := hperm.mem_iff.mpr he_own
      rw [hSdecomp] at hm
      rcases List.mem_append.mp hm with hk | h1
      · exact hk
      · exact absurd (by simpa using h1) he_ne_d
    have hd_not_keep : d ∉ keep := by
      have hn2 := hSnodup
      rw [hSdecomp] at hn2
      intro hk
      exact (List.nodup_append.mp hn2).2.2 hk (by simp)
    refine ⟨?_, ?_⟩
    · rw [hres]
      refine List.mem_filter.mpr ⟨by rw [hlog1]; simp, ?_⟩
      have hin : e.id ∈ keepIds := by rw [hkeepIds]; exact List.mem_map_of_mem _ he_keep
      simp [hin]
    · intro x hx
      constructor
      · intro hxres
        rw [hres] at hxres
        have h2 := List.mem_filter.mp hxres
        have hpx : (x.owner == e.owner) = true := (List.mem_filter.mp hx).2
        have h4 := h2.2
        simp only [Bool.or_eq_true, bne_iff_ne, ne_eq] at h4
        have hxid : x.id ∈ keepIds := by
          rcases h4 with h4 | h4
          · exact absurd (by simpa using hpx) h4
          · simpa using h4
        obtain ⟨y, hy, hyid⟩ := List.mem_map.mp hxid
        have hy_log1 : y ∈ log1 := (List.filter_sublist _).subset (hkeep_own y hy)
        have hx_log1 : x ∈ log1 := by
          rw [hlog1]
          exact List.mem_append.mpr (Or.inl (hrows_log x hx))
        have hyx : y = x := injId y hy_log1 x hx_log1 hyid
        rw [hyx] at hy
        intro hxo
        rw [hxo, ← hdold] at hy
        exact hd_not_keep hy
      · intro hxne
        have hx_S : x ∈ S := hperm.mem_iff.mpr (by rw [hown_eq]; exact List.mem_append.mpr (Or.inl hx))
        rw [hSdecomp] at hx_S
        rcases List.mem_append.mp hx_S with hk | h1
        · have hxid : x.id ∈ keepIds := by rw [hkeepIds]; exact List.mem_map_of_mem _ hk
          rw [hres]
          refine List.mem_filter.mpr ⟨?_, by simp [hxid]⟩
          rw [hlog1]
          exact List.mem_append.mpr (Or.inl (hrows_log x hx))
        · exact absurd (by rw [hdold] at h1; simpa using h1) hxne

def c8log : List HistEntry := (List.range 50).map (fun i => ⟨i, 9, 100 + i, (i : Int)⟩)

def c8e : HistEntry := ⟨99, 9, 555, 1000⟩

def c8oldest : HistEntry := ⟨0, 9, 100, 0⟩

def c8second : HistEntry := ⟨1, 9, 101, 1⟩

theorem C8_history_cap_and_eviction_witness :
    (((historyInsertTrim c8log c8e).filter (fun r => r.owner == c8e.owner)).length ≤ 50) ∧
    c8e ∈ historyInsertTrim c8log c8e ∧
    (c8second ∈ historyInsertTrim c8log c8e ↔ c8second ≠ c8oldest) := by
  have h := C8_history_cap_and_eviction c8log c8e (by decide)
  have h2 := h.2 (by decide) (by decide) (by decide) c8oldest (by decide) (by decide)
  exact ⟨h.1, h2.1, h2.2 c8second (by decide)⟩
